import Mathlib

/-!
# Verification of the Kirby service-center scraper core

Shallow embedding of `src/web_scraping/scrape_kirby.py` and
`src/web_scraping/config.py`.  Browser/DOM interactions are modelled as
pure data: a rendered listing (`li` element with its queried
sub-elements) becomes a `Fragment`; the asynchronously changing result
page becomes a function from elapsed waits to a fragment list; Python
exceptions become `Except`/`Option` error values that the driver's
`try/except` structure catches or propagates exactly as the source does.
Python string primitives used by the parser (`in`, `str.replace`,
`str.strip`, `str.lower`, `str.split(sep)[0]`) are modelled by fuel-free
structural recursions on `List Char` so that all definitions evaluate by
`decide`/`rfl`.
-/

set_option autoImplicit false

namespace Kirby

/-! ## Python string primitives -/

/-- `charsPrefix p s` : is `p` a prefix of `s` (Python `s.startswith(p)`). -/
def charsPrefix : List Char → List Char → Bool
  | [], _ => true
  | _ :: _, [] => false
  | a :: ps, b :: ss => a == b && charsPrefix ps ss

/-- `charsContains s p` : does `p` occur as a contiguous substring of `s`
(Python `p in s`). -/
def charsContains : List Char → List Char → Bool
  | s, p =>
    match s with
    | [] => charsPrefix p []
    | _ :: rest => charsPrefix p s || charsContains rest p

/-- Remove every (left-to-right, non-overlapping) occurrence of the
non-empty pattern `pat`, with fuel for structural termination;
models Python `s.replace(pat, "")`. -/
def removeAllAux (pat : List Char) : Nat → List Char → List Char
  | 0, s => s
  | fuel + 1, s =>
    match s with
    | [] => []
    | c :: rest =>
      if charsPrefix pat s then removeAllAux pat fuel (s.drop pat.length)
      else c :: removeAllAux pat fuel rest

/-- Python `s.replace(pat, "")` (the scraper only ever replaces with `""`). -/
def pyRemove (s pat : String) : String :=
  if pat.data.isEmpty then s else ⟨removeAllAux pat.data s.data.length s.data⟩

/-- Characters up to (excluding) the first occurrence of `pat`;
models Python `s.split(pat)[0]` for a non-empty separator. -/
def beforeFirstAux (pat : List Char) : Nat → List Char → List Char
  | 0, _ => []
  | _ + 1, [] => []
  | fuel + 1, c :: rest =>
    if charsPrefix pat (c :: rest) then [] else c :: beforeFirstAux pat fuel rest

/-- Python `s.split(pat)[0]`. -/
def pySplitHead (s pat : String) : String :=
  ⟨beforeFirstAux pat.data s.data.length s.data⟩

/-- Python `s.strip()`: drop leading and trailing whitespace. -/
def pyStrip (s : String) : String :=
  ⟨((s.data.dropWhile Char.isWhitespace).reverse.dropWhile Char.isWhitespace).reverse⟩

/-- Python `s.lower()` (ASCII case folding suffices for the scraper's use). -/
def pyLower (s : String) : String :=
  ⟨s.data.map Char.toLower⟩

/-- Python `p in s` on strings. -/
def pyContains (s p : String) : Bool :=
  charsContains s.data p.data

/-! ## Data model

A `Fragment` models one `li` result element together with the outcome of
each DOM query the parse loop performs on it:

* `storeId`      — `store.get("data-store-id")`;
* `strongText`   — text of `store.find("strong")`, absent if no such child;
* `streetSpan`   — `store.find("span", class_="wpsl-street")` with the text
  of its `find_next_sibling("span")` when that sibling exists;
* `countryText`  — text of `store.find("span", class_="wpsl-country")`;
* `contactSpans` — `store.find("p", class_="wpsl-contact-details")`: when the
  block is present, the raw `get_text()` of each of its `span` children;
* `directionWrap`— `store.find("div", class_="wpsl-direction-wrap")`: its
  stripped `get_text` and its first `a` child, whose `href` attribute may be
  absent (in which case `a_tag["href"]` raises `KeyError`).

Texts are stored as the raw node text; the parser applies `pyStrip` where
the source calls `get_text(strip=True)`. -/

structure Anchor where
  href : Option String
deriving Repr, DecidableEq

structure DirectionWrap where
  text : String
  anchor : Option Anchor
deriving Repr, DecidableEq

structure StreetSpan where
  text : String
  nextSiblingText : Option String
deriving Repr, DecidableEq

structure Fragment where
  storeId : Option String
  strongText : Option String
  streetSpan : Option StreetSpan
  countryText : Option String
  contactSpans : Option (List String)
  directionWrap : Option DirectionWrap
deriving Repr, DecidableEq

/-- One extracted listing record (the 8-element list stored in
`unique_stores[store_id]`). -/
structure Record where
  name : String
  street : String
  cityStateZip : String
  country : String
  phone : String
  email : String
  distance : String
  directionsLink : String
deriving Repr, DecidableEq

/-- `unique_stores`: a Python `dict` in insertion order, embedded as an
association list keyed by `store_id`. -/
abbrev Store : Type := List (String × Record)

/-- The keys currently present (`store_id in unique_stores`). -/
def storeKeys (s : Store) : List String := s.map Prod.fst

/-- Membership test `store_id in unique_stores`. -/
def storeMem (sid : String) (s : Store) : Bool := (storeKeys s).contains sid

/-- `unique_stores[store_id]` lookup (first binding; keys are unique). -/
def storeLookup (sid : String) : Store → Option Record
  | [] => none
  | (k, r) :: rest => if k = sid then some r else storeLookup sid rest

/-! ## Page Parser (lines 156–189) -/

/-- The scan over the contact block's spans (lines 172–180): for each span,
if `"Phone"` occurs in its raw text the phone becomes the stripped text with
every `"Phone:"` removed, then stripped; likewise `"Email"`.  Later matching
spans overwrite earlier ones. -/
def scanStep (pe : String × String) (t : String) : String × String :=
  let p := if pyContains t "Phone" then pyStrip (pyRemove (pyStrip t) "Phone:") else pe.1
  let e := if pyContains t "Email" then pyStrip (pyRemove (pyStrip t) "Email:") else pe.2
  (p, e)

def scanContact (spans : List String) : String × String :=
  spans.foldl scanStep ("", "")

/-- Modelled from the spec (§4.2, for C7's refinement comparison): phone and
email are obtained by matching a label prefix (`"Phone:"` / `"Email:"`) on a
line and taking the remainder of that line; absent label gives the empty
field. -/
def scanContactSpec (spans : List String) : String × String :=
  spans.foldl
    (fun pe t =>
      let p := if charsPrefix "Phone:".data (pyStrip t).data then
          pyStrip ⟨(pyStrip t).data.drop "Phone:".data.length⟩ else pe.1
      let e := if charsPrefix "Email:".data (pyStrip t).data then
          pyStrip ⟨(pyStrip t).data.drop "Email:".data.length⟩ else pe.2
      (p, e))
    ("", "")

/-- Field extraction for one candidate listing element (lines 163–188).
The only fallible step is `a_tag["href"]`, which raises `KeyError` when the
anchor in the directions block has no `href` attribute; every other missing
sub-element defaults that field to `""`. -/
def parseFragment (f : Fragment) : Except String Record := do
  let name := (f.strongText.map pyStrip).getD ""
  let street := (f.streetSpan.map (fun ss => pyStrip ss.text)).getD ""
  let cityStateZip :=
    match f.streetSpan with
    | none => ""
    | some ss => (ss.nextSiblingText.map pyStrip).getD ""
  let country := (f.countryText.map pyStrip).getD ""
  let (phone, email) :=
    match f.contactSpans with
    | none => ("", "")
    | some spans => scanContact spans
  let (distance, directionsLink) ←
    match f.directionWrap with
    | none => pure ("", "")
    | some dw => do
        let distance := pyStrip (pySplitHead (pyStrip dw.text) "Directions")
        match dw.anchor with
        | none => pure (distance, "")
        | some a =>
          match a.href with
          | none => Except.error "KeyError: href"
          | some h => pure (distance, h)
  pure ⟨name, street, cityStateZip, country, phone, email, distance, directionsLink⟩

/-- `soup.find_all("li", attrs={"data-store-id": True})`: the listing
elements that carry the store-identifier attribute. -/
def findStores (page : List Fragment) : List Fragment :=
  page.filter (fun f => f.storeId.isSome)

/-- The extraction-and-merge loop (lines 159–189) starting from the current
store.  Elements without the attribute never reach the loop; an element whose
`store_id` is already present is skipped before any field is parsed; a parse
error (`KeyError` on a missing `href`) propagates, leaving the records merged
so far in the store — exactly the mutation pattern of `unique_stores`. -/
def mergeLoop (store : Store) : List Fragment → Store × Option String
  | [] => (store, none)
  | f :: rest =>
    match f.storeId with
    | none => mergeLoop store rest
    | some sid =>
      if storeMem sid store then mergeLoop store rest
      else
        match parseFragment f with
        | Except.error e => (store, some e)
        | Except.ok r => mergeLoop (store ++ [(sid, r)]) rest

/-! ## Poll-Until-Ready Loop (lines 131–157)

The page is modelled as a function of the number of completed waits since
the search was submitted: `pages 1` is what the first poll attempt sees
(after `time.sleep(10)`), and every failing attempt's `time.sleep(5)`
advances the index by one before the next read.  Attempt `k` (0-based)
therefore parses `pages (k + 1)`.  `time.sleep` is the only point at which
the rendered page may change, so the unconditional re-parse at line 156
sees `pages (i + 1)` when the loop broke at attempt `i`, and `pages 6` when
all 5 attempts failed (the `else` branch sleeps even on the last attempt). -/

/-- The `for attempt in range(max_attempts)` loop over the remaining attempt
indices: returns the attempt index at which it stopped (5 when the range was
exhausted) together with the list of attempts after which the search control
was re-clicked (`attempt < max_attempts - 1`, i.e. all but the last; the
re-click itself is inside `try/except: pass` and cannot raise). -/
def pollLoopAux (pages : Nat → List Fragment) : List Nat → Nat × List Nat
  | [] => (5, [])
  | a :: rest =>
    if (findStores (pages (a + 1))).isEmpty then
      let r := pollLoopAux pages rest
      (r.1, (if a < 4 then [a] else []) ++ r.2)
    else (a, [])

/-- The loop run over `range(max_attempts)` with `max_attempts = 5`. -/
def pollOutcome (pages : Nat → List Fragment) : Nat × List Nat :=
  pollLoopAux pages [0, 1, 2, 3, 4]

/-- The listing elements the extraction phase actually works on: the
re-parse of `driver.page_source` at lines 156–157, after the loop exits. -/
def pollResult (pages : Nat → List Fragment) : List Fragment :=
  findStores (pages ((pollOutcome pages).1 + 1))

/-- Spec-side characterization of the loop's exit point: the first of the 5
attempts whose parse finds a listing, or 5 when none does. -/
def firstNonempty (pages : Nat → List Fragment) : Nat :=
  match (List.range 5).find? (fun i => !(findStores (pages (i + 1))).isEmpty) with
  | some i => i
  | none => 5

/-! ## Obstruction Handler (lines 58–95) -/

/-- A clickable control: its text and whether clicking it succeeds
(`clickOk = false` models a raised exception, e.g. not interactable). -/
structure Button where
  text : String
  clickOk : Bool
deriving Repr, DecidableEq

/-- A DOM element as seen by the overlay-removal script: its id and class
attribute strings. -/
structure DomElem where
  idAttr : String
  classAttr : String
deriving Repr, DecidableEq

/-- What the consent-dismissal cascade can observe on the page:
`byId` / `byClass` are the results of the two `find_element` calls (absent
models `NoSuchElementException`), `buttons` is `find_elements(By.TAG_NAME,
"button")`, and `elems` the elements visible to the removal script. -/
structure ConsentDom where
  byId : Option Button
  byClass : Option Button
  buttons : List Button
  elems : List DomElem
deriving Repr, DecidableEq

/-- Strategy 1 (lines 60–67): find by id `hs-eu-confirmation-button` and
click; any exception is swallowed, leaving `popup_closed` false. -/
def tryById (dom : ConsentDom) : Bool :=
  match dom.byId with
  | none => false
  | some b => b.clickOk

/-- Strategy 2 (lines 68–76): find by class name and click. -/
def tryByClass (dom : ConsentDom) : Bool :=
  match dom.byClass with
  | none => false
  | some b => b.clickOk

/-- Line 82's matcher: `"accept" in btn.text.lower() or "agree" in
btn.text.lower()`. -/
def acceptButton (b : Button) : Bool :=
  pyContains (pyLower b.text) "accept" || pyContains (pyLower b.text) "agree"

/-- Strategy 3 (lines 77–88): scan all buttons, click the first whose text
matches; a raising click aborts the whole strategy (the `try` wraps the
loop), which is then counted as failed. -/
def tryByText (dom : ConsentDom) : Bool :=
  match dom.buttons.find? acceptButton with
  | none => false
  | some b => b.clickOk

/-- The removal script's selector `[id*="cookie"], [class*="cookie"],
[id*="consent"], [class*="consent"]`. -/
def isOverlay (e : DomElem) : Bool :=
  pyContains e.idAttr "cookie" || pyContains e.classAttr "cookie" ||
    pyContains e.idAttr "consent" || pyContains e.classAttr "consent"

/-- Outcome of the dismissal cascade: which of strategies 1–3 set
`popup_closed` (none when all failed and the removal script ran), and the
page's elements afterwards. -/
structure DismissResult where
  strategyUsed : Option Nat
  elems : List DomElem
deriving Repr, DecidableEq

/-- The full cascade (lines 58–95): strategies 1–3 guarded by
`popup_closed`, each with its failures swallowed; the removal script runs
only when all three failed, and removes exactly the matching overlays.  The
handler is a total function — it never raises. -/
def dismissIfPresent (dom : ConsentDom) : DismissResult :=
  if tryById dom then ⟨some 1, dom.elems⟩
  else if tryByClass dom then ⟨some 2, dom.elems⟩
  else if tryByText dom then ⟨some 3, dom.elems⟩
  else ⟨none, dom.elems.filter (fun e => !isOverlay e)⟩

/-! ## Configuration catalog (`config.py`) -/

structure Config where
  locations : List String
  search_radius : String
  max_results : String
  description : String
deriving Repr, DecidableEq

def MAJOR_CITIES_CONFIG : Config :=
  { locations := ["New York, NY", "Los Angeles, CA", "Chicago, IL", "Houston, TX",
      "Phoenix, AZ", "Philadelphia, PA", "San Antonio, TX", "San Diego, CA",
      "Dallas, TX", "San Jose, CA"]
    search_radius := "50"
    max_results := "25"
    description := "Major US Cities - Quick Test" }

def TOP_50_CITIES_CONFIG : Config :=
  { locations := ["New York City, NY", "Los Angeles, CA", "Chicago, IL", "Houston, TX",
      "Phoenix, AZ", "Philadelphia, PA", "San Antonio, TX", "San Diego, CA",
      "Dallas, TX", "Jacksonville, FL", "Fort Worth, TX", "Austin, TX",
      "San Jose, CA", "Charlotte, NC", "Columbus, OH", "Indianapolis, IN",
      "San Francisco, CA", "Seattle, WA", "Denver, CO", "Oklahoma City, OK",
      "Nashville, TN", "Washington, DC", "El Paso, TX", "Las Vegas, NV",
      "Boston, MA", "Detroit, MI", "Portland, OR", "Louisville, KY",
      "Memphis, TN", "Baltimore, MD", "Albuquerque, NM", "Milwaukee, WI",
      "Tucson, AZ", "Fresno, CA", "Sacramento, CA", "Atlanta, GA",
      "Mesa, AZ", "Kansas City, MO", "Colorado Springs, CO", "Raleigh, NC",
      "Omaha, NE", "Miami, FL", "Virginia Beach, VA", "Long Beach, CA",
      "Oakland, CA", "Minneapolis, MN", "Bakersfield, CA", "Tulsa, OK",
      "Tampa, FL", "Arlington, TX"]
    search_radius := "75"
    max_results := "50"
    description := "Top 50 Major US Cities - Population Based" }

def ALL_50_STATES_CONFIG : Config :=
  { locations := ["Alabama", "Alaska", "Arizona", "Arkansas", "California",
      "Colorado", "Connecticut", "Delaware", "Florida", "Georgia", "Hawaii",
      "Idaho", "Illinois", "Indiana", "Iowa", "Kansas", "Kentucky",
      "Louisiana", "Maine", "Maryland", "Massachusetts", "Michigan",
      "Minnesota", "Mississippi", "Missouri", "Montana", "Nebraska",
      "Nevada", "New Hampshire", "New Jersey", "New Mexico", "New York",
      "North Carolina", "North Dakota", "Ohio", "Oklahoma", "Oregon",
      "Pennsylvania", "Rhode Island", "South Carolina", "South Dakota",
      "Tennessee", "Texas", "Utah", "Vermont", "Virginia", "Washington",
      "West Virginia", "Wisconsin", "Wyoming"]
    search_radius := "100"
    max_results := "50"
    description := "All 50 US States - Complete Coverage" }

def ALL_STATES_CONFIG : Config :=
  { locations := ["Alaska", "Texas", "California", "Montana", "New Mexico",
      "Arizona", "Nevada", "Colorado", "Oregon", "Wyoming", "Michigan",
      "Minnesota", "Utah", "Idaho", "Kansas", "Nebraska", "South Dakota",
      "Washington", "North Dakota", "Oklahoma", "Missouri", "Florida",
      "Wisconsin", "Georgia", "Illinois", "Iowa", "New York",
      "North Carolina", "Arkansas", "Alabama", "Louisiana", "Mississippi",
      "Pennsylvania", "Ohio", "Virginia", "Tennessee", "Kentucky",
      "Indiana", "Maine", "South Carolina", "West Virginia", "Maryland",
      "Hawaii", "Massachusetts", "Vermont", "New Hampshire", "New Jersey",
      "Connecticut"]
    search_radius := "100"
    max_results := "50"
    description := "All US States - Comprehensive Search (Legacy)" }

def ROBOTICS_HUBS_CONFIG : Config :=
  { locations := ["San Francisco, CA", "Seattle, WA", "Boston, MA", "Austin, TX",
      "Pittsburgh, PA", "Atlanta, GA", "Denver, CO", "Portland, OR",
      "San Diego, CA", "Cambridge, MA"]
    search_radius := "75"
    max_results := "75"
    description := "Robotics Hub Cities - Focused Search" }

def HIGH_POPULATION_CONFIG : Config :=
  { locations := ["California", "Texas", "Florida", "New York", "Pennsylvania",
      "Illinois", "Ohio", "Georgia", "North Carolina", "Michigan",
      "New Jersey", "Virginia", "Washington", "Arizona", "Massachusetts",
      "Tennessee", "Indiana", "Missouri", "Maryland", "Colorado"]
    search_radius := "200"
    max_results := "100"
    description := "High Population States - Dense Coverage" }

def CUSTOM_CONFIG : Config :=
  { locations := ["Houston, TX", "Dallas, TX", "Austin, TX", "San Antonio, TX"]
    search_radius := "50"
    max_results := "25"
    description := "Custom Locations - User Defined" }

def DEFAULT_CONFIG : Config := MAJOR_CITIES_CONFIG

/-- The `configs` dict inside `get_config`. -/
def configCatalog : List (String × Config) :=
  [("major_cities", MAJOR_CITIES_CONFIG), ("top_50_cities", TOP_50_CITIES_CONFIG),
   ("all_50_states", ALL_50_STATES_CONFIG), ("all_states", ALL_STATES_CONFIG),
   ("robotics_hubs", ROBOTICS_HUBS_CONFIG), ("high_population", HIGH_POPULATION_CONFIG),
   ("custom", CUSTOM_CONFIG)]

/-- `configs.get(config_name, DEFAULT_CONFIG)`. -/
def get_config (config_name : String) : Config :=
  (configCatalog.lookup config_name).getD DEFAULT_CONFIG

def knownConfigNames : List String := configCatalog.map Prod.fst

/-- Line 208: `f"kirby_service_centers_{config_name}.csv"`. -/
def finalFilename (config_name : String) : String :=
  "kirby_service_centers_" ++ config_name ++ ".csv"

/-- Line 197:
`f"kirby_service_centers_{config_name}_intermediate_{current_search}.csv"`. -/
def intermediateFilename (config_name : String) (current_search : Nat) : String :=
  "kirby_service_centers_" ++ config_name ++ "_intermediate_" ++
    toString current_search ++ ".csv"

/-! ## CSV flush (lines 196–215) -/

def headerRow : List String :=
  ["Name", "Street", "City/State/Zip", "Country", "Phone", "Email",
   "Distance", "Directions Link"]

def recordRow (r : Record) : List String :=
  [r.name, r.street, r.cityStateZip, r.country, r.phone, r.email,
   r.distance, r.directionsLink]

/-- The rows a flush writes: the header then `unique_stores.values()` in
insertion order (Python dicts iterate in insertion order). -/
def flushRows (s : Store) : List (List String) :=
  headerRow :: s.map (fun kr => recordRow kr.2)

/-- `open(path, "w")` then writing `rows`: the file system maps each path to
its rows; writing replaces the content at `path` and touches nothing else. -/
def fsWrite (fs : String → Option (List (List String))) (path : String)
    (rows : List (List String)) : String → Option (List (List String)) :=
  fun q => if q = path then some rows else fs q

/-! ## Campaign Driver (lines 52–218) -/

/-- What the site/browser does for one location: whether the radius and
max-results dropdowns are found (lines 98–115; a missing one only logs a
warning), an exception raised while entering the location or clicking
search (lines 118–130, models e.g. `TimeoutException`), and the page's
listing content as a function of elapsed waits after submission. -/
structure LocBehavior where
  radiusFound : Bool
  resultsFound : Bool
  queryError : Option String
  pages : Nat → List Fragment

inductive LogEvent where
  | radiusWarn : LogEvent
  | resultsWarn : LogEvent
  | locationError : String → String → LogEvent
deriving Repr, DecidableEq

/-- Run state threaded through the location loop: the record store, the
flushes performed so far (path and rows, in the order written), the log,
and how many locations have been fully iterated. -/
structure RunState where
  store : Store
  flushes : List (String × List (List String))
  logs : List LogEvent
  processed : Nat
deriving Repr, DecidableEq

/-- One iteration of `for location in config['locations']` with
`current_search` already incremented.  The dropdown setters only warn; an
exception from the query phase or from extraction is caught at lines
191–193, logged with the location name, and `continue`s — which skips the
checkpoint block at lines 195–205.  On the success path the store is merged
and, when `current_search % 10 == 0`, an intermediate flush is appended. -/
def driverStep (config_name location : String) (current_search : Nat)
    (beh : LocBehavior) (st : RunState) : RunState :=
  let logs1 := st.logs
    ++ (if beh.radiusFound then [] else [LogEvent.radiusWarn])
    ++ (if beh.resultsFound then [] else [LogEvent.resultsWarn])
  match beh.queryError with
  | some e =>
      { st with logs := logs1 ++ [LogEvent.locationError location e],
                processed := st.processed + 1 }
  | none =>
      let m := mergeLoop st.store (pollResult beh.pages)
      match m.2 with
      | some e =>
          { store := m.1, flushes := st.flushes,
            logs := logs1 ++ [LogEvent.locationError location e],
            processed := st.processed + 1 }
      | none =>
          let st1 : RunState :=
            { store := m.1, flushes := st.flushes, logs := logs1,
              processed := st.processed + 1 }
          if current_search % 10 = 0 then
            { st1 with flushes := st1.flushes
                ++ [(intermediateFilename config_name current_search,
                     flushRows st1.store)] }
          else st1

/-- The location loop; `i` is the 0-based index, `current_search = i + 1`,
and `env i` is the site's behaviour for the `i`-th location. -/
def runLoop (config_name : String) (env : Nat → LocBehavior) :
    Nat → List String → RunState → RunState
  | _, [], st => st
  | i, loc :: rest, st =>
      runLoop config_name env (i + 1) rest
        (driverStep config_name loc (i + 1) (env i) st)

def initialState : RunState := ⟨[], [], [], 0⟩

/-- A whole run over a given location list: the loop followed by the
unconditional final flush (lines 207–215). -/
def runDriver (config_name : String) (locations : List String)
    (env : Nat → LocBehavior) : RunState :=
  let st := runLoop config_name env 0 locations initialState
  { st with flushes := st.flushes
      ++ [(finalFilename config_name, flushRows st.store)] }

/-- `main` for a given command-line configuration name: the locations come
from `get_config`. -/
def mainRun (config_name : String) (env : Nat → LocBehavior) : RunState :=
  runDriver config_name (get_config config_name).locations env

/-! ## Derived notions and concrete instances used by the verification -/

/-- The data rows (without the header) a store flushes. -/
def storeRows (s : Store) : List (List String) :=
  s.map (fun kr => recordRow kr.2)

/-- Whether every directions anchor of the fragment carries an `href`
target — the only condition under which field extraction cannot raise. -/
def hrefOk (f : Fragment) : Bool :=
  match f.directionWrap with
  | none => true
  | some dw =>
    match dw.anchor with
    | none => true
    | some a => a.href.isSome

/-- A location behaviour that cannot produce a per-location failure: no
query-phase exception and a merge that never errors from any store. -/
def behSucceeds (beh : LocBehavior) : Prop :=
  beh.queryError = none ∧ ∀ store : Store, (mergeLoop store (pollResult beh.pages)).2 = none

/-- The intermediate-file names the loop writes when every location
succeeds, starting at 0-based index `i` with `n` locations to go. -/
def checkpointPaths (cfg : String) : Nat → Nat → List String
  | _, 0 => []
  | i, n + 1 =>
    (if (i + 1) % 10 = 0 then [intermediateFilename cfg (i + 1)] else []) ++
      checkpointPaths cfg (i + 1) n

/-- The record first stored under id `"2"` (phone `"111"`). -/
def recordA : Record := ⟨"Store A", "", "", "", "111", "", "", ""⟩

/-- A later, richer fragment for the same id `"2"` with a different phone. -/
def frag2B : Fragment := ⟨some "2", some "Store B", none, some "US", some ["Phone: 222"], none⟩

/-- A well-formed listing fragment with id `"1"`. -/
def goodFrag : Fragment := ⟨some "1", some "Good Store", none, none, none, none⟩

/-- A fragment whose directions anchor has no `href` target: parsing it
raises `KeyError`. -/
def badAnchorFrag : Fragment :=
  ⟨some "9", none, none, none, none, some ⟨"2.0 miDirections", some ⟨none⟩⟩⟩

/-- Behaviour of a location whose page renders `goodFrag` then
`badAnchorFrag`: extraction inserts the first record, then raises. -/
def c2FailBeh : LocBehavior := ⟨true, true, none, fun _ => [goodFrag, badAnchorFrag]⟩

/-- Behaviour of a location whose query phase raises (e.g. the location
input could not be found in time). -/
def c2QueryFailBeh : LocBehavior := ⟨true, true, some "TimeoutException", fun _ => []⟩

/-- A listing that only ever appears on the re-parse after the loop. -/
def lateFrag : Fragment := ⟨some "7", some "Late Store", none, none, none, none⟩

/-- A page that stays empty through all 5 poll attempts and first shows a
listing after the final retry wait (read 6). -/
def latePages : Nat → List Fragment := fun t => if t = 6 then [lateFrag] else []

/-- A listing that appears from the 3rd poll onwards. -/
def thirdPollFrag : Fragment := ⟨some "3", some "Third Poll Store", none, none, none, none⟩

/-- A page that only shows its listing from the 3rd poll attempt on. -/
def thirdPollPages : Nat → List Fragment := fun t => if 3 ≤ t then [thirdPollFrag] else []

/-- Behaviour of a location that succeeds with an empty result page. -/
def okBeh : LocBehavior := ⟨true, true, none, fun _ => []⟩

/-- Behaviour of a location that fails in the query phase. -/
def failBeh : LocBehavior := ⟨true, true, some "NoSuchElementException", fun _ => []⟩

/-- Ten configured locations. -/
def tenLocs : List String := List.replicate 10 "Town"

/-- Environment in which only the 10th location (index 9) fails. -/
def c4Env : Nat → LocBehavior := fun i => if i = 9 then failBeh else okBeh

/-- Twenty-five configured locations. -/
def locs25 : List String := List.replicate 25 "City"

/-- A candidate listing element with every optional sub-element absent. -/
def emptyIdFrag : Fragment := ⟨some "5", none, none, none, none, none⟩

/-- A listing element lacking the store-identifier attribute. -/
def noIdFrag : Fragment := ⟨none, some "Nameless", none, none, none, none⟩

/-- A page on which nothing resembles a consent obstruction. -/
def quietDom : ConsentDom := ⟨none, none, [⟨"Submit", true⟩], [⟨"main", "page-body"⟩]⟩

/-- Behaviour of a location whose page always renders `goodFrag`. -/
def listingBeh : LocBehavior := ⟨true, true, none, fun _ => [goodFrag]⟩

/-- Environment in which the 1st location finds one listing and the rest
find none. -/
def c10Env : Nat → LocBehavior := fun i => if i = 0 then listingBeh else okBeh

/-- Invariant maintained by the location loop: store keys are pairwise
distinct, every flush so far wrote the header plus the rows of a
duplicate-free store, each flush's data rows form a prefix of the current
store's rows, and the flushes' data rows are pairwise prefix-ordered. -/
def FlushInv (st : RunState) : Prop :=
  (storeKeys st.store).Nodup ∧
  (∀ e ∈ st.flushes, ∃ s : Store, (storeKeys s).Nodup ∧ e.2 = flushRows s) ∧
  (∀ e ∈ st.flushes, (e.2.drop 1) <+: storeRows st.store) ∧
  List.Pairwise (fun a b : String × List (List String) => a.2.drop 1 <+: b.2.drop 1) st.flushes

/-! ## Store lemmas -/

theorem storeKeys_append (s t : Store) : storeKeys (s ++ t) = storeKeys s ++ storeKeys t := by
  simp [storeKeys]

theorem storeMem_iff (sid : String) (s : Store) : storeMem sid s = true ↔ sid ∈ storeKeys s := by
  simp [storeMem, List.contains, List.elem_iff]

theorem mergeLoop_store_append (store : Store) (frags : List Fragment) :
    ∃ t : Store, (mergeLoop store frags).1 = store ++ t := by
  induction frags generalizing store with
  | nil => exact ⟨[], by simp [mergeLoop]⟩
  | cons f rest ih =>
    cases hf : f.storeId with
    | none => simpa [mergeLoop, hf] using ih store
    | some sid =>
      by_cases hm : storeMem sid store = true
      · simpa [mergeLoop, hf, hm] using ih store
      · cases hp : parseFragment f with
        | error e => exact ⟨[], by simp [mergeLoop, hf, hm, hp]⟩
        | ok r =>
          obtain ⟨t, ht⟩ := ih (store ++ [(sid, r)])
          exact ⟨(sid, r) :: t, by simp [mergeLoop, hf, hm, hp, ht]⟩

theorem mergeLoop_nodup (store : Store) (frags : List Fragment)
    (h : (storeKeys store).Nodup) : (storeKeys (mergeLoop store frags).1).Nodup := by
  induction frags generalizing store with
  | nil => simpa [mergeLoop] using h
  | cons f rest ih =>
    cases hf : f.storeId with
    | none => simpa [mergeLoop, hf] using ih store h
    | some sid =>
      by_cases hm : storeMem sid store = true
      · simpa [mergeLoop, hf, hm] using ih store h
      · cases hp : parseFragment f with
        | error e => simpa [mergeLoop, hf, hm, hp] using h
        | ok r =>
          have hnot : sid ∉ storeKeys store := fun hmem => hm ((storeMem_iff sid store).2 hmem)
          have h2 : (storeKeys (store ++ [(sid, r)])).Nodup := by
            rw [storeKeys_append]
            exact h.append (by simp [storeKeys]) (by
              intro x hx hx'
              simp [storeKeys] at hx'
              exact hnot (hx' ▸ hx))
          simpa [mergeLoop, hf, hm, hp] using ih (store ++ [(sid, r)]) h2

theorem storeLookup_append (sid : String) (s t : Store) (h : sid ∈ storeKeys s) :
    storeLookup sid (s ++ t) = storeLookup sid s := by
  induction s with
  | nil => simp [storeKeys] at h
  | cons kr rest ih =>
    obtain ⟨k, r⟩ := kr
    by_cases hk : k = sid
    · simp [storeLookup, hk]
    · have h' : sid ∈ storeKeys rest := by
        simp [storeKeys] at h
        rcases h with h | h
        · exact absurd h.symm hk
        · simpa [storeKeys] using h
      simp [storeLookup, hk, ih h']

theorem mergeLoop_lookup (store : Store) (frags : List Fragment) (sid : String)
    (h : storeMem sid store = true) :
    storeLookup sid (mergeLoop store frags).1 = storeLookup sid store := by
  obtain ⟨t, ht⟩ := mergeLoop_store_append store frags
  rw [ht, storeLookup_append sid store t ((storeMem_iff sid store).1 h)]

theorem driverStep_store_append (cfg loc : String) (i : Nat) (beh : LocBehavior)
    (st : RunState) : ∃ t : Store, (driverStep cfg loc i beh st).store = st.store ++ t := by
  unfold driverStep
  cases hq : beh.queryError with
  | some e => exact ⟨[], by simp⟩
  | none =>
    obtain ⟨t, ht⟩ := mergeLoop_store_append st.store (pollResult beh.pages)
    cases hm : (mergeLoop st.store (pollResult beh.pages)).2 with
    | some e => exact ⟨t, by simp [hm, ht]⟩
    | none =>
      by_cases hc : i % 10 = 0
      · exact ⟨t, by simp [hm, hc, ht]⟩
      · exact ⟨t, by simp [hm, hc, ht]⟩

theorem driverStep_nodup (cfg loc : String) (i : Nat) (beh : LocBehavior) (st : RunState)
    (h : (storeKeys st.store).Nodup) :
    (storeKeys (driverStep cfg loc i beh st).store).Nodup := by
  unfold driverStep
  cases hq : beh.queryError with
  | some e => simpa using h
  | none =>
    have hn := mergeLoop_nodup st.store (pollResult beh.pages) h
    cases hm : (mergeLoop st.store (pollResult beh.pages)).2 with
    | some e => simpa [hm] using hn
    | none =>
      by_cases hc : i % 10 = 0
      · simpa [hm, hc] using hn
      · simpa [hm, hc] using hn

theorem runLoop_nodup (cfg : String) (env : Nat → LocBehavior) (i : Nat)
    (locs : List String) (st : RunState) (h : (storeKeys st.store).Nodup) :
    (storeKeys (runLoop cfg env i locs st).store).Nodup := by
  induction locs generalizing i st with
  | nil => simpa [runLoop] using h
  | cons loc rest ih =>
    simpa [runLoop] using ih (i + 1) _ (driverStep_nodup cfg loc (i + 1) (env i) st h)

theorem runLoop_store_append (cfg : String) (env : Nat → LocBehavior) (i : Nat)
    (locs : List String) (st : RunState) :
    ∃ t : Store, (runLoop cfg env i locs st).store = st.store ++ t := by
  induction locs generalizing i st with
  | nil => exact ⟨[], by simp [runLoop]⟩
  | cons loc rest ih =>
    obtain ⟨t1, ht1⟩ := driverStep_store_append cfg loc (i + 1) (env i) st
    obtain ⟨t2, ht2⟩ := ih (i + 1) (driverStep cfg loc (i + 1) (env i) st)
    exact ⟨t1 ++ t2, by simp [runLoop, ht2, ht1]⟩

/-- C1: over every sequence of parsed listing fragments, the store's keys
stay pairwise distinct for the whole run; merging leaves the existing
entries in place (the store only grows at the tail), so a fragment whose
`store_id` is already present leaves the stored record unchanged
(first-seen wins), however complete the new fragment is. -/
theorem c1_store_unique_first_seen :
    (∀ (config_name : String) (locations : List String) (env : Nat → LocBehavior),
        (storeKeys (runDriver config_name locations env).store).Nodup) ∧
    (∀ (store : Store) (frags : List Fragment),
        ∃ t : Store, (mergeLoop store frags).1 = store ++ t) ∧
    (∀ (store : Store) (frags : List Fragment) (sid : String),
        storeMem sid store = true →
        storeLookup sid (mergeLoop store frags).1 = storeLookup sid store) := by
  refine ⟨fun cfg locs env => ?_, mergeLoop_store_append, mergeLoop_lookup⟩
  have h := runLoop_nodup cfg env 0 locs initialState (by simp [initialState, storeKeys])
  simpa [runDriver] using h

/-- Witness for C1: merging a later fragment with the already-present id
`"2"` leaves the stored record (phone `"111"`) unchanged. -/
theorem c1_store_unique_first_seen_witness :
    storeLookup "2" (mergeLoop [("2", recordA)] [frag2B]).1 = some recordA := by
  have h := c1_store_unique_first_seen.2.2 [("2", recordA)] [frag2B] "2" (by decide)
  rw [h]; rfl

/-! ## Per-location failure handling -/

theorem driverStep_processed (cfg loc : String) (i : Nat) (beh : LocBehavior)
    (st : RunState) : (driverStep cfg loc i beh st).processed = st.processed + 1 := by
  unfold driverStep
  cases hq : beh.queryError with
  | some e => simp
  | none =>
    cases hm : (mergeLoop st.store (pollResult beh.pages)).2 with
    | some e => simp [hm]
    | none => by_cases hc : i % 10 = 0 <;> simp [hm, hc]

theorem runLoop_processed (cfg : String) (env : Nat → LocBehavior) (i : Nat)
    (locs : List String) (st : RunState) :
    (runLoop cfg env i locs st).processed = st.processed + locs.length := by
  induction locs generalizing i st with
  | nil => simp [runLoop]
  | cons loc rest ih =>
    rw [runLoop, ih, driverStep_processed]
    simp only [List.length_cons]
    omega

/-- C2 (amended): an exception in the query phase (entering the location
text, submitting) is caught, logged with the location name, and contributes
zero records; an exception during extraction is likewise caught and logged
with the location name, but the records merged before the failure remain in
the store; in both cases no flush happens for that location and the driver
advances to the next location (every configured location is iterated); a
missing radius or max-results control only logs a warning and leaves the
rest of the location's processing — in particular the resulting store —
unchanged. -/
theorem c2_per_location_failure :
    (∀ (cfg loc : String) (i : Nat) (beh : LocBehavior) (st : RunState) (e : String),
        beh.queryError = some e →
        (driverStep cfg loc i beh st).store = st.store ∧
        (driverStep cfg loc i beh st).flushes = st.flushes ∧
        (∃ pre, (driverStep cfg loc i beh st).logs = pre ++ [LogEvent.locationError loc e]) ∧
        (driverStep cfg loc i beh st).processed = st.processed + 1) ∧
    (∀ (cfg loc : String) (i : Nat) (beh : LocBehavior) (st : RunState) (e : String),
        beh.queryError = none →
        (mergeLoop st.store (pollResult beh.pages)).2 = some e →
        (driverStep cfg loc i beh st).store = (mergeLoop st.store (pollResult beh.pages)).1 ∧
        (∃ t : Store, (driverStep cfg loc i beh st).store = st.store ++ t) ∧
        (driverStep cfg loc i beh st).flushes = st.flushes ∧
        (∃ pre, (driverStep cfg loc i beh st).logs = pre ++ [LogEvent.locationError loc e])) ∧
    (∀ (cfg : String) (env : Nat → LocBehavior) (i : Nat) (locs : List String)
        (st : RunState),
        (runLoop cfg env i locs st).processed = st.processed + locs.length) ∧
    (∀ (cfg loc : String) (i : Nat) (beh : LocBehavior) (st : RunState),
        (driverStep cfg loc i { beh with radiusFound := false } st).store
          = (driverStep cfg loc i { beh with radiusFound := true } st).store ∧
        LogEvent.radiusWarn ∈ (driverStep cfg loc i { beh with radiusFound := false } st).logs) ∧
    (∀ (cfg loc : String) (i : Nat) (beh : LocBehavior) (st : RunState),
        (driverStep cfg loc i { beh with resultsFound := false } st).store
          = (driverStep cfg loc i { beh with resultsFound := true } st).store ∧
        LogEvent.resultsWarn ∈ (driverStep cfg loc i { beh with resultsFound := false } st).logs) := by
  refine ⟨?_, ?_, runLoop_processed, ?_, ?_⟩
  · intro cfg loc i beh st e hq
    unfold driverStep
    rw [hq]
    exact ⟨rfl, rfl, ⟨_, rfl⟩, rfl⟩
  · intro cfg loc i beh st e hq hm
    obtain ⟨t, ht⟩ := mergeLoop_store_append st.store (pollResult beh.pages)
    unfold driverStep
    rw [hq]
    simp only [hm]
    exact ⟨trivial, ⟨t, ht⟩, trivial, ⟨_, rfl⟩⟩
  · intro cfg loc i beh st
    constructor
    · unfold driverStep
      cases hq : beh.queryError with
      | some e => simp
      | none =>
        cases hm : (mergeLoop st.store (pollResult beh.pages)).2 with
        | some e => simp [hm]
        | none => by_cases hc : i % 10 = 0 <;> simp [hm, hc]
    · unfold driverStep
      cases hq : beh.queryError with
      | some e => simp
      | none =>
        cases hm : (mergeLoop st.store (pollResult beh.pages)).2 with
        | some e => simp [hm]
        | none => by_cases hc : i % 10 = 0 <;> simp [hm, hc]
  · intro cfg loc i beh st
    constructor
    · unfold driverStep
      cases hq : beh.queryError with
      | some e => simp
      | none =>
        cases hm : (mergeLoop st.store (pollResult beh.pages)).2 with
        | some e => simp [hm]
        | none => by_cases hc : i % 10 = 0 <;> simp [hm, hc]
    · unfold driverStep
      cases hq : beh.queryError with
      | some e => simp
      | none =>
        cases hm : (mergeLoop st.store (pollResult beh.pages)).2 with
        | some e => simp [hm]
        | none => by_cases hc : i % 10 = 0 <;> simp [hm, hc]

/-- Counterexample for C2 as stated: at this location the extraction
exception is caught and logged with the location name, yet the location
contributes one record (the one merged before the failure), not zero. -/
theorem c2_counterexample :
    (driverStep "major_cities" "Town A" 1 c2FailBeh initialState).logs
        = [LogEvent.locationError "Town A" "KeyError: href"] ∧
    (driverStep "major_cities" "Town A" 1 c2FailBeh initialState).store
        = [("1", ⟨"Good Store", "", "", "", "", "", "", ""⟩)] := by
  exact ⟨rfl, rfl⟩

/-- Witness for C2: a concrete query-phase failure is caught, logged with
the location name, and leaves the store unchanged. -/
theorem c2_per_location_failure_witness :
    (driverStep "major_cities" "Town B" 1 c2QueryFailBeh initialState).store
        = initialState.store ∧
    (∃ pre, (driverStep "major_cities" "Town B" 1 c2QueryFailBeh initialState).logs
        = pre ++ [LogEvent.locationError "Town B" "TimeoutException"]) := by
  have h := c2_per_location_failure.1 "major_cities" "Town B" 1 c2QueryFailBeh
    initialState "TimeoutException" rfl
  exact ⟨h.1, h.2.2.1⟩

/-! ## Poll-loop lemmas -/

theorem pollOutcome_characterization (pages : Nat → List Fragment) :
    (pollOutcome pages).1 = firstNonempty pages ∧
    (pollOutcome pages).2 = List.range (min (firstNonempty pages) 4) := by
  have hr : List.range 5 = [0, 1, 2, 3, 4] := rfl
  by_cases h1 : (findStores (pages 1)).isEmpty <;>
  by_cases h2 : (findStores (pages 2)).isEmpty <;>
  by_cases h3 : (findStores (pages 3)).isEmpty <;>
  by_cases h4 : (findStores (pages 4)).isEmpty <;>
  by_cases h5 : (findStores (pages 5)).isEmpty <;>
    simp [pollOutcome, pollLoopAux, firstNonempty, hr, List.find?, h1, h2, h3, h4, h5,
      List.range_succ]

theorem firstNonempty_le (pages : Nat → List Fragment) : firstNonempty pages ≤ 5 := by
  have hr : List.range 5 = [0, 1, 2, 3, 4] := rfl
  by_cases h1 : (findStores (pages 1)).isEmpty <;>
  by_cases h2 : (findStores (pages 2)).isEmpty <;>
  by_cases h3 : (findStores (pages 3)).isEmpty <;>
  by_cases h4 : (findStores (pages 4)).isEmpty <;>
  by_cases h5 : (findStores (pages 5)).isEmpty <;>
    simp [firstNonempty, hr, List.find?, h1, h2, h3, h4, h5]

/-- C3 (amended): the loop makes at most 5 attempts and stops at the first
attempt whose parse finds a listing (`firstNonempty`); the search control is
re-clicked exactly after each failed attempt other than the last (attempts
`0 … min(exit,4) - 1`); listings appearing only on the 3rd poll are
returned.  When all 5 attempts find none, the loop exits without raising
and extraction works on one final re-parse taken after the last retry wait;
the location yields zero results whenever the page still has no listings at
that final re-parse (in particular whenever it stays empty throughout). -/
theorem c3_poll_until_ready :
    (∀ pages : Nat → List Fragment,
        (pollOutcome pages).1 = firstNonempty pages ∧ firstNonempty pages ≤ 5) ∧
    (∀ pages : Nat → List Fragment,
        (pollOutcome pages).2 = List.range (min (firstNonempty pages) 4)) ∧
    (∀ pages : Nat → List Fragment,
        (findStores (pages 1)).isEmpty = true →
        (findStores (pages 2)).isEmpty = true →
        (findStores (pages 3)).isEmpty = false →
        pollResult pages = findStores (pages 3) ∧ (pollOutcome pages).2 = [0, 1]) ∧
    (∀ pages : Nat → List Fragment,
        (∀ t, t ≤ 6 → findStores (pages t) = []) → pollResult pages = []) := by
  refine ⟨fun pages => ⟨(pollOutcome_characterization pages).1, firstNonempty_le pages⟩,
    fun pages => (pollOutcome_characterization pages).2, fun pages h1 h2 h3 => ?_, fun pages h => ?_⟩
  · have hr : List.range 5 = [0, 1, 2, 3, 4] := rfl
    have hfn : firstNonempty pages = 2 := by
      simp [firstNonempty, hr, List.find?, h1, h2, h3]
    constructor
    · rw [pollResult, (pollOutcome_characterization pages).1, hfn]
    · rw [(pollOutcome_characterization pages).2, hfn]
      rfl
  · have hemp : ∀ t, t ≤ 6 → (findStores (pages t)).isEmpty = true := by
      intro t ht
      simp [h t ht]
    have hfn : firstNonempty pages = 5 := by
      have hr : List.range 5 = [0, 1, 2, 3, 4] := rfl
      simp [firstNonempty, hr, List.find?, hemp 1 (by omega), hemp 2 (by omega),
        hemp 3 (by omega), hemp 4 (by omega), hemp 5 (by omega)]
    rw [pollResult, (pollOutcome_characterization pages).1, hfn]
    exact h 6 (by omega)

/-- Counterexample for C3 as stated: all 5 poll attempts find no listing,
yet the location does not yield zero results — the unconditional re-parse
after the loop picks up the late listing. -/
theorem c3_counterexample :
    (findStores (latePages 1) = [] ∧ findStores (latePages 2) = [] ∧
     findStores (latePages 3) = [] ∧ findStores (latePages 4) = [] ∧
     findStores (latePages 5) = []) ∧
    pollResult latePages = [lateFrag] := by decide

/-- Witness for C3: on a page showing listings only from the 3rd poll, the
loop does not give up early — it returns that listing, having nudged the
search control after attempts 0 and 1. -/
theorem c3_poll_until_ready_witness :
    pollResult thirdPollPages = [thirdPollFrag] ∧
    (pollOutcome thirdPollPages).2 = [0, 1] := by
  have h := c3_poll_until_ready.2.2.1 thirdPollPages (by decide) (by decide) (by decide)
  exact ⟨by rw [h.1]; decide, h.2⟩

/-! ## Checkpointing lemmas -/

theorem driverStep_flush_paths (cfg loc : String) (i : Nat) (beh : LocBehavior)
    (st : RunState) (h : behSucceeds beh) :
    ((driverStep cfg loc i beh st).flushes).map Prod.fst =
      st.flushes.map Prod.fst ++ (if i % 10 = 0 then [intermediateFilename cfg i] else []) := by
  obtain ⟨hq, hm⟩ := h
  unfold driverStep
  rw [hq]
  simp only [hm st.store]
  by_cases hc : i % 10 = 0 <;> simp [hc]

theorem runLoop_flush_paths (cfg : String) (env : Nat → LocBehavior) (locs : List String)
    (i : Nat) (st : RunState) (h : ∀ j, behSucceeds (env j)) :
    ((runLoop cfg env i locs st).flushes).map Prod.fst =
      st.flushes.map Prod.fst ++ checkpointPaths cfg i locs.length := by
  induction locs generalizing i st with
  | nil => simp [runLoop, checkpointPaths]
  | cons loc rest ih =>
    rw [runLoop, ih (i + 1), driverStep_flush_paths cfg loc (i + 1) (env i) st (h i),
      List.append_assoc, List.length_cons]
    rfl

theorem string_of_data_eq (s t : String) (h : s.data = t.data) : s = t := by
  cases s; cases t; exact congrArg String.mk h

theorem finalFilename_ne_intermediate (cfg : String) (n : Nat) :
    finalFilename cfg ≠ intermediateFilename cfg n := by
  intro he
  have hd := congrArg String.data he
  simp only [finalFilename, intermediateFilename, String.data_append, List.append_assoc] at hd
  have hl := congrArg List.length hd
  simp [List.length_append] at hl

theorem intermediate_10_ne_20 (cfg : String) :
    intermediateFilename cfg 10 ≠ intermediateFilename cfg 20 := by
  intro he
  have hd := congrArg String.data he
  simp only [intermediateFilename, String.data_append, List.append_assoc] at hd
  have h1 := List.append_cancel_left hd
  have h2 := List.append_cancel_left h1
  have h3 := List.append_cancel_left h2
  have h4 := List.append_cancel_right h3
  have : toString (10 : Nat) = toString (20 : Nat) := string_of_data_eq _ _ h4
  exact absurd this (by decide)

/-- C4 (amended): when every location succeeds, the loop flushes an
intermediate file exactly after every 10th location (named by configuration
name and location count), and the final flush to the canonical output file
always occurs after the last location, whatever happened before it.  With
25 all-succeeding locations the run writes exactly the intermediate files
for locations 10 and 20 and then the final file, all three at pairwise
distinct paths (so the final flush leaves the intermediates in place).  A
location that completes with a per-location failure, however, skips its
checkpoint: the `continue` in the exception handler jumps over the
checkpoint block (see the counterexample). -/
theorem c4_checkpointing :
    (∀ (cfg : String) (env : Nat → LocBehavior) (locs : List String) (st : RunState) (i : Nat),
        (∀ j, behSucceeds (env j)) →
        ((runLoop cfg env i locs st).flushes).map Prod.fst =
          st.flushes.map Prod.fst ++ checkpointPaths cfg i locs.length) ∧
    (∀ (cfg : String) (locs : List String) (env : Nat → LocBehavior),
        locs.length = 25 → (∀ j, behSucceeds (env j)) →
        ((runDriver cfg locs env).flushes).map Prod.fst =
          [intermediateFilename cfg 10, intermediateFilename cfg 20, finalFilename cfg] ∧
        (((runDriver cfg locs env).flushes).map Prod.fst).Nodup) ∧
    (∀ (cfg : String) (locs : List String) (env : Nat → LocBehavior),
        ((runDriver cfg locs env).flushes).getLast? =
          some (finalFilename cfg, flushRows (runLoop cfg env 0 locs initialState).store)) := by
  refine ⟨fun cfg env locs st i h => runLoop_flush_paths cfg env locs i st h,
    fun cfg locs env hlen h => ?_, fun cfg locs env => ?_⟩
  · have hpaths : ((runDriver cfg locs env).flushes).map Prod.fst =
        checkpointPaths cfg 0 25 ++ [finalFilename cfg] := by
      rw [runDriver]
      simp only [List.map_append]
      rw [runLoop_flush_paths cfg env locs 0 initialState h, hlen]
      simp [initialState]
    have hck : checkpointPaths cfg 0 25 =
        [intermediateFilename cfg 10, intermediateFilename cfg 20] := rfl
    rw [hpaths, hck]
    refine ⟨rfl, ?_⟩
    have h12 := intermediate_10_ne_20 cfg
    have hf1 := finalFilename_ne_intermediate cfg 10
    have hf2 := finalFilename_ne_intermediate cfg 20
    simp [List.nodup_cons]
    exact ⟨⟨h12, fun he => hf1 he.symm⟩, fun he => hf2 he.symm⟩
  · rw [runDriver]
    simp

/-- Counterexample for C4 as stated: with 10 locations of which the 10th
completes with a per-location failure, no intermediate file is written
after the 10th completed location — only the final file appears. -/
theorem c4_counterexample :
    ((runDriver "major_cities" tenLocs c4Env).flushes).map Prod.fst
        = [finalFilename "major_cities"] ∧
    (runDriver "major_cities" tenLocs c4Env).processed = 10 ∧
    LogEvent.locationError "Town" "NoSuchElementException"
        ∈ (runDriver "major_cities" tenLocs c4Env).logs := by decide

/-- Witness for C4: 25 locations that all succeed produce exactly the
intermediate files after locations 10 and 20 followed by the final file. -/
theorem c4_checkpointing_witness :
    ((runDriver "major_cities" locs25 (fun _ => okBeh)).flushes).map Prod.fst =
      [intermediateFilename "major_cities" 10, intermediateFilename "major_cities" 20,
       finalFilename "major_cities"] := by
  exact (c4_checkpointing.2.1 "major_cities" locs25 (fun _ => okBeh) (by decide)
    (fun j => ⟨rfl, fun store => rfl⟩)).1

/-! ## Page Parser lemmas -/

theorem parseFragment_fields (f : Fragment) (r : Record)
    (h : parseFragment f = Except.ok r) :
    r.name = (f.strongText.map pyStrip).getD "" ∧
    r.street = (f.streetSpan.map (fun ss => pyStrip ss.text)).getD "" ∧
    r.cityStateZip = (match f.streetSpan with
      | none => ""
      | some ss => (ss.nextSiblingText.map pyStrip).getD "") ∧
    r.country = (f.countryText.map pyStrip).getD "" ∧
    r.phone = (match f.contactSpans with
      | none => ""
      | some spans => (scanContact spans).1) ∧
    r.email = (match f.contactSpans with
      | none => ""
      | some spans => (scanContact spans).2) ∧
    r.distance = (match f.directionWrap with
      | none => ""
      | some dw => pyStrip (pySplitHead (pyStrip dw.text) "Directions")) ∧
    r.directionsLink = (match f.directionWrap with
      | none => ""
      | some dw =>
        match dw.anchor with
        | none => ""
        | some a => a.href.getD "") := by
  cases hdw : f.directionWrap with
  | none =>
    simp [parseFragment, hdw, pure, Except.pure, bind, Except.bind] at h
    simp [← h, hdw]
    cases f.contactSpans <;> exact ⟨rfl, rfl⟩
  | some dw =>
    cases ha : dw.anchor with
    | none =>
      simp [parseFragment, hdw, ha, pure, Except.pure, bind, Except.bind] at h
      simp [← h, hdw, ha]
      cases f.contactSpans <;> exact ⟨rfl, rfl⟩
    | some a =>
      cases hh : a.href with
      | none => simp [parseFragment, hdw, ha, hh, pure, Except.pure, bind, Except.bind] at h
      | some u =>
        simp [parseFragment, hdw, ha, hh, pure, Except.pure, bind, Except.bind] at h
        simp [← h, hdw, ha, hh]
        cases f.contactSpans <;> exact ⟨rfl, rfl⟩

theorem parseFragment_total_of_hrefOk (f : Fragment) (h : hrefOk f = true) :
    ∃ r : Record, parseFragment f = Except.ok r := by
  cases hp : parseFragment f with
  | ok r => exact ⟨r, rfl⟩
  | error e =>
    exfalso
    cases hdw : f.directionWrap with
    | none => simp [parseFragment, hdw, pure, Except.pure, bind, Except.bind] at hp
    | some dw =>
      cases ha : dw.anchor with
      | none => simp [parseFragment, hdw, ha, pure, Except.pure, bind, Except.bind] at hp
      | some a =>
        cases hh : a.href with
        | none => simp [hrefOk, hdw, ha, hh] at h
        | some u => simp [parseFragment, hdw, ha, hh, pure, Except.pure, bind, Except.bind] at hp

/-- C5 (amended): the parser never raises as long as every directions
anchor that is present carries an `href` target; each of the eight fields
independently defaults to the empty string when its sub-element is absent;
and an element lacking the store-identifier attribute contributes zero
records (it is not selected, and the merge loop skips it).  When a
directions anchor is present without an `href` target, however, field
extraction raises `KeyError` (see the counterexample). -/
theorem c5_parser_defaults :
    (∀ f : Fragment, hrefOk f = true → ∃ r : Record, parseFragment f = Except.ok r) ∧
    (∀ (f : Fragment) (r : Record), parseFragment f = Except.ok r →
        (f.strongText = none → r.name = "") ∧
        (f.streetSpan = none → r.street = "" ∧ r.cityStateZip = "") ∧
        (∀ ss, f.streetSpan = some ss → ss.nextSiblingText = none → r.cityStateZip = "") ∧
        (f.countryText = none → r.country = "") ∧
        (f.contactSpans = none → r.phone = "" ∧ r.email = "") ∧
        (f.directionWrap = none → r.distance = "" ∧ r.directionsLink = "") ∧
        (∀ dw, f.directionWrap = some dw → dw.anchor = none → r.directionsLink = "")) ∧
    (∀ (store : Store) (f : Fragment) (rest : List Fragment), f.storeId = none →
        mergeLoop store (f :: rest) = mergeLoop store rest) ∧
    (∀ f : Fragment, f.storeId = none → findStores [f] = []) := by
  refine ⟨parseFragment_total_of_hrefOk, ?_, ?_, ?_⟩
  · intro f r h
    obtain ⟨h1, h2, h3, h4, h5, h6, h7, h8⟩ := parseFragment_fields f r h
    refine ⟨?_, ?_, ?_, ?_, ?_, ?_, ?_⟩
    · intro hs; simp [h1, hs]
    · intro hs; exact ⟨by simp [h2, hs], by simp [h3, hs]⟩
    · intro ss hs hns; simp [h3, hs, hns]
    · intro hs; simp [h4, hs]
    · intro hs; exact ⟨by simp [h5, hs], by simp [h6, hs]⟩
    · intro hs; exact ⟨by simp [h7, hs], by simp [h8, hs]⟩
    · intro dw hs hna; simp [h8, hs, hna]
  · intro store f rest h
    simp [mergeLoop, h]
  · intro f h
    simp [findStores, h]

/-- Counterexample for C5 as stated: a fragment whose directions block
contains an anchor without an `href` target makes field extraction raise
`KeyError` instead of defaulting the field to the empty string. -/
theorem c5_counterexample :
    parseFragment badAnchorFrag = Except.error "KeyError: href" ∧
    (mergeLoop [] [badAnchorFrag]).2 = some "KeyError: href" := ⟨rfl, rfl⟩

/-- Witness for C5: a fragment with all sub-elements absent parses without
raising, and a fragment without the store-identifier attribute is skipped
by the merge loop. -/
theorem c5_parser_defaults_witness :
    (∃ r : Record, parseFragment emptyIdFrag = Except.ok r) ∧
    mergeLoop [] [noIdFrag] = ([], none) := by
  refine ⟨c5_parser_defaults.1 emptyIdFrag rfl, ?_⟩
  rw [c5_parser_defaults.2.2.1 [] noIdFrag [] rfl]
  rfl

/-! ## Obstruction Handler theorems -/

/-- C6: the four dismissal strategies run in their fixed order — by stable
identifier, by style class, by button text containing "accept" or "agree"
case-insensitively, then forcible removal of the elements whose identifier
or class contains "cookie" or "consent" — and stop at the first success;
each strategy's failure (control absent, or a click that raises) is
swallowed, and `dismissIfPresent` is a total function, so the handler never
raises to its caller; with no obstruction present it succeeds silently,
leaving the page's elements unchanged. -/
theorem c6_obstruction_cascade :
    (∀ dom : ConsentDom, tryById dom = true →
        dismissIfPresent dom = ⟨some 1, dom.elems⟩) ∧
    (∀ dom : ConsentDom, tryById dom = false → tryByClass dom = true →
        dismissIfPresent dom = ⟨some 2, dom.elems⟩) ∧
    (∀ dom : ConsentDom, tryById dom = false → tryByClass dom = false →
        tryByText dom = true → dismissIfPresent dom = ⟨some 3, dom.elems⟩) ∧
    (∀ dom : ConsentDom, tryById dom = false → tryByClass dom = false →
        tryByText dom = false →
        dismissIfPresent dom = ⟨none, dom.elems.filter (fun e => !isOverlay e)⟩) ∧
    (∀ b : Button, acceptButton b =
        (pyContains (pyLower b.text) "accept" || pyContains (pyLower b.text) "agree")) ∧
    (∀ dom : ConsentDom, dom.byId = none → dom.byClass = none →
        (∀ b ∈ dom.buttons, acceptButton b = false) →
        (∀ e ∈ dom.elems, isOverlay e = false) →
        dismissIfPresent dom = ⟨none, dom.elems⟩) := by
  refine ⟨?_, ?_, ?_, ?_, fun b => rfl, ?_⟩
  · intro dom h
    simp [dismissIfPresent, h]
  · intro dom h1 h2
    simp [dismissIfPresent, h1, h2]
  · intro dom h1 h2 h3
    simp [dismissIfPresent, h1, h2, h3]
  · intro dom h1 h2 h3
    simp [dismissIfPresent, h1, h2, h3]
  · intro dom h1 h2 h3 h4
    have t1 : tryById dom = false := by simp [tryById, h1]
    have t2 : tryByClass dom = false := by simp [tryByClass, h2]
    have t3 : tryByText dom = false := by
      cases hf : dom.buttons.find? acceptButton with
      | none => simp [tryByText, hf]
      | some b =>
        have hb := List.find?_some hf
        rw [h3 b (List.mem_of_find?_eq_some hf)] at hb
        exact absurd hb (by simp)
    have hfil : dom.elems.filter (fun e => !isOverlay e) = dom.elems := by
      apply List.filter_eq_self.2
      intro e he
      simp [h4 e he]
    simp [dismissIfPresent, t1, t2, t3, hfil]

/-- Witness for C6: a page with no obstruction — no consent control by id
or class, no accept/agree button, no cookie/consent element — is left
unchanged, silently. -/
theorem c6_obstruction_cascade_witness :
    dismissIfPresent quietDom = ⟨none, quietDom.elems⟩ := by
  exact c6_obstruction_cascade.2.2.2.2.2 quietDom rfl rfl (by decide) (by decide)

/-! ## Contact-scan theorems -/

theorem foldl_scanStep_phone (spans : List String) (pe : String × String)
    (h : ∀ t ∈ spans, pyContains t "Phone" = false) :
    (spans.foldl scanStep pe).1 = pe.1 := by
  induction spans generalizing pe with
  | nil => rfl
  | cons t rest ih =>
    have ht := h t (by simp)
    have hrest : ∀ x ∈ rest, pyContains x "Phone" = false := fun x hx => h x (by simp [hx])
    rw [List.foldl_cons, ih _ hrest]
    simp [scanStep, ht]

theorem foldl_scanStep_email (spans : List String) (pe : String × String)
    (h : ∀ t ∈ spans, pyContains t "Email" = false) :
    (spans.foldl scanStep pe).2 = pe.2 := by
  induction spans generalizing pe with
  | nil => rfl
  | cons t rest ih =>
    have ht := h t (by simp)
    have hrest : ∀ x ∈ rest, pyContains x "Email" = false := fun x hx => h x (by simp [hx])
    rw [List.foldl_cons, ih _ hrest]
    simp [scanStep, ht]

/-- C7 (amended): the contact scan looks for the label word `"Phone"` /
`"Email"` as a case-sensitive substring of a span's text (the colon is not
required and the label need not be a prefix), and the field becomes the
span's stripped text with every occurrence of the label-plus-colon removed
and then stripped — which coincides with "the remainder of the line" when
the line really is the label prefix followed by the value; a block with no
span containing the label word yields the empty string for that field. -/
theorem c7_contact_scan :
    (∀ spans : List String, (∀ t ∈ spans, pyContains t "Phone" = false) →
        (scanContact spans).1 = "") ∧
    (∀ spans : List String, (∀ t ∈ spans, pyContains t "Email" = false) →
        (scanContact spans).2 = "") ∧
    (scanContact ["Phone: 555-0100", "Email: k@example.org"]
        = ("555-0100", "k@example.org") ∧
      scanContactSpec ["Phone: 555-0100", "Email: k@example.org"]
        = ("555-0100", "k@example.org")) := by
  exact ⟨fun spans h => foldl_scanStep_phone spans ("", "") h,
    fun spans h => foldl_scanStep_email spans ("", "") h, by decide⟩

/-- Counterexample for C7 as stated: the span text `"Phone 555-0100"` has
no `"Phone:"` label prefix, so by the claim the phone field should be
empty; the code matches the bare word `"Phone"` anywhere in the line and
keeps the whole text. -/
theorem c7_counterexample :
    pyContains "Phone 555-0100" "Phone" = true ∧
    charsPrefix "Phone:".data (pyStrip "Phone 555-0100").data = false ∧
    (scanContact ["Phone 555-0100"]).1 = "Phone 555-0100" ∧
    (scanContactSpec ["Phone 555-0100"]).1 = "" := by decide

/-- Witness for C7: a contact block whose only span has no phone label at
all yields an empty phone field. -/
theorem c7_contact_scan_witness : (scanContact ["Fax: 000"]).1 = "" := by
  exact c7_contact_scan.1 ["Fax: 000"] (by decide)

/-! ## Flush invariant -/

theorem storeRows_append (s t : Store) : storeRows (s ++ t) = storeRows s ++ storeRows t := by
  simp [storeRows]

theorem flushRows_drop_one (s : Store) : (flushRows s).drop 1 = storeRows s := rfl

theorem driverStep_flushInv (cfg loc : String) (i : Nat) (beh : LocBehavior) (st : RunState)
    (h : FlushInv st) : FlushInv (driverStep cfg loc i beh st) := by
  obtain ⟨hnd, hfl, hpre, hpw⟩ := h
  unfold driverStep
  cases hq : beh.queryError with
  | some e => exact ⟨hnd, hfl, hpre, hpw⟩
  | none =>
    obtain ⟨t, ht⟩ := mergeLoop_store_append st.store (pollResult beh.pages)
    have hnd' := mergeLoop_nodup st.store (pollResult beh.pages) hnd
    have hpre' : ∀ e ∈ st.flushes,
        (e.2.drop 1) <+: storeRows (mergeLoop st.store (pollResult beh.pages)).1 := by
      intro e he
      rw [ht, storeRows_append]
      exact (hpre e he).trans (List.prefix_append _ _)
    cases hm : (mergeLoop st.store (pollResult beh.pages)).2 with
    | some e =>
      simp only [hm]
      exact ⟨hnd', hfl, hpre', hpw⟩
    | none =>
      simp only [hm]
      by_cases hc : i % 10 = 0
      · rw [if_pos hc]
        refine ⟨hnd', ?_, ?_, ?_⟩
        · intro e he
          rcases List.mem_append.1 he with h1 | h1
          · exact hfl e h1
          · simp only [List.mem_singleton] at h1
            rw [h1]
            exact ⟨(mergeLoop st.store (pollResult beh.pages)).1, hnd', rfl⟩
        · intro e he
          rcases List.mem_append.1 he with h1 | h1
          · exact hpre' e h1
          · simp only [List.mem_singleton] at h1
            rw [h1]
            exact List.prefix_refl _
        · rw [List.pairwise_append]
          refine ⟨hpw, by simp, ?_⟩
          intro a ha b hb
          simp only [List.mem_singleton] at hb
          rw [hb]
          exact hpre' a ha
      · rw [if_neg hc]
        exact ⟨hnd', hfl, hpre', hpw⟩

theorem runLoop_flushInv (cfg : String) (env : Nat → LocBehavior) (i : Nat)
    (locs : List String) (st : RunState) (h : FlushInv st) :
    FlushInv (runLoop cfg env i locs st) := by
  induction locs generalizing i st with
  | nil => exact h
  | cons loc rest ih =>
    exact ih (i + 1) _ (driverStep_flushInv cfg loc (i + 1) (env i) st h)

theorem initialState_flushInv : FlushInv initialState := by
  refine ⟨?_, ?_, ?_, ?_⟩ <;> simp [initialState, storeKeys, FlushInv]

theorem runDriver_flushInv (cfg : String) (locs : List String) (env : Nat → LocBehavior) :
    FlushInv (runDriver cfg locs env) := by
  obtain ⟨hnd, hfl, hpre, hpw⟩ :=
    runLoop_flushInv cfg env 0 locs initialState initialState_flushInv
  unfold runDriver
  refine ⟨hnd, ?_, ?_, ?_⟩
  · intro e he
    rcases List.mem_append.1 he with h1 | h1
    · exact hfl e h1
    · simp only [List.mem_singleton] at h1
      rw [h1]
      exact ⟨_, hnd, rfl⟩
  · intro e he
    rcases List.mem_append.1 he with h1 | h1
    · exact hpre e h1
    · simp only [List.mem_singleton] at h1
      rw [h1]
      exact List.prefix_refl _
  · rw [List.pairwise_append]
    refine ⟨hpw, by simp, ?_⟩
    intro a ha b hb
    simp only [List.mem_singleton] at hb
    rw [hb]
    exact hpre a ha

/-- C8: `fsWrite` replaces exactly the content at its target path (a flush
overwrites any prior file there) and leaves every other path unchanged; and
every file the run flushes — intermediate or final — consists of exactly
the header row `Name, Street, City/State/Zip, Country, Phone, Email,
Distance, Directions Link` followed by one row per entry of a
duplicate-free store in first-inserted order, each record's eight fields
written verbatim (absent sub-elements were already defaulted to `""` by
the parser). -/
theorem c8_flush_format :
    (∀ (fs : String → Option (List (List String))) (path : String)
        (rows : List (List String)), fsWrite fs path rows path = some rows) ∧
    (∀ (fs : String → Option (List (List String))) (path : String)
        (rows : List (List String)) (q : String), q ≠ path →
        fsWrite fs path rows q = fs q) ∧
    (∀ s : Store, flushRows s = headerRow :: storeRows s ∧
        (storeRows s).length = s.length ∧
        ∀ kr ∈ s, recordRow kr.2 ∈ storeRows s) ∧
    (∀ (cfg : String) (locs : List String) (env : Nat → LocBehavior),
        ∀ e ∈ (runDriver cfg locs env).flushes,
          ∃ s : Store, (storeKeys s).Nodup ∧ e.2 = headerRow :: storeRows s) := by
  refine ⟨fun fs path rows => by simp [fsWrite],
    fun fs path rows q hq => by simp [fsWrite, hq], ?_, ?_⟩
  · intro s
    exact ⟨rfl, by simp [storeRows], fun kr hkr => List.mem_map_of_mem _ hkr⟩
  · intro cfg locs env e he
    exact (runDriver_flushInv cfg locs env).2.1 e he

/-- Witness for C8: writing to one path leaves another untouched, and the
final flush of an empty run is the bare header of a duplicate-free store. -/
theorem c8_flush_format_witness :
    fsWrite (fun _ => none) "a.csv" [headerRow] "b.csv" = none ∧
    ∃ s : Store, (storeKeys s).Nodup ∧
      ((finalFilename "major_cities", flushRows ([] : Store)) :
          String × List (List String)).2 = headerRow :: storeRows s := by
  constructor
  · exact c8_flush_format.2.1 (fun _ => none) "a.csv" [headerRow] "b.csv" (by decide)
  · exact c8_flush_format.2.2.2 "major_cities" [] (fun _ => okBeh)
      (finalFilename "major_cities", flushRows []) (by decide)

/-- C9: a configuration name outside the catalog silently falls back to the
default `major_cities` configuration — the run then iterates exactly the 10
major-city locations — while both the final flush path and the intermediate
flush paths are still built from the requested, unrecognized name. -/
theorem c9_unknown_config_name (name : String) (h : name ∉ knownConfigNames) :
    get_config name = MAJOR_CITIES_CONFIG ∧
    (∀ env : Nat → LocBehavior,
        (mainRun name env).processed = MAJOR_CITIES_CONFIG.locations.length ∧
        ((mainRun name env).flushes).getLast? =
          some (finalFilename name,
            flushRows (runLoop name env 0 MAJOR_CITIES_CONFIG.locations initialState).store)) := by
  have hg : get_config name = MAJOR_CITIES_CONFIG := by
    simp only [knownConfigNames, configCatalog, List.map_cons, List.map_nil,
      List.mem_cons, List.not_mem_nil, or_false, not_or] at h
    obtain ⟨h1, h2, h3, h4, h5, h6, h7⟩ := h
    have b1 : (name == "major_cities") = false := beq_eq_false_iff_ne.2 h1
    have b2 : (name == "top_50_cities") = false := beq_eq_false_iff_ne.2 h2
    have b3 : (name == "all_50_states") = false := beq_eq_false_iff_ne.2 h3
    have b4 : (name == "all_states") = false := beq_eq_false_iff_ne.2 h4
    have b5 : (name == "robotics_hubs") = false := beq_eq_false_iff_ne.2 h5
    have b6 : (name == "high_population") = false := beq_eq_false_iff_ne.2 h6
    have b7 : (name == "custom") = false := beq_eq_false_iff_ne.2 h7
    simp [get_config, configCatalog, List.lookup, b1, b2, b3, b4, b5, b6, b7, DEFAULT_CONFIG]
  refine ⟨hg, fun env => ⟨?_, ?_⟩⟩
  · rw [mainRun, hg, runDriver]
    simp [runLoop_processed, initialState]
  · rw [mainRun, hg, runDriver]
    simp

/-- Witness for C9: the unrecognized name `"bogus"` gets the default
configuration and its run processes the 10 default locations. -/
theorem c9_unknown_config_name_witness :
    get_config "bogus" = MAJOR_CITIES_CONFIG ∧
    (mainRun "bogus" (fun _ => okBeh)).processed = 10 := by
  have h := c9_unknown_config_name "bogus" (by decide)
  exact ⟨h.1, by rw [(h.2 (fun _ => okBeh)).1]; rfl⟩

/-- C10: flushed snapshots grow monotonically — within one run, the data
rows of any earlier flush form a prefix of the data rows of any later
flush, in the same order with identical field values, because records are
only ever appended to the store and never mutated or removed. -/
theorem c10_monotone_flushes (cfg : String) (locs : List String) (env : Nat → LocBehavior)
    (i j : Nat) (hij : i ≤ j) (hj : j < (runDriver cfg locs env).flushes.length) :
    (((runDriver cfg locs env).flushes.getD i ("", [])).2.drop 1) <+:
      (((runDriver cfg locs env).flushes.getD j ("", [])).2.drop 1) := by
  have hi : i < (runDriver cfg locs env).flushes.length := lt_of_le_of_lt hij hj
  rcases Nat.lt_or_ge i j with hlt | hge
  · have hpw := (runDriver_flushInv cfg locs env).2.2.2
    have hrel := List.pairwise_iff_get.1 hpw ⟨i, hi⟩ ⟨j, hj⟩ hlt
    rwa [List.getD_eq_get?, List.getD_eq_get?, List.get?_eq_get hi, List.get?_eq_get hj]
  · have heq : i = j := Nat.le_antisymm hij hge
    rw [heq]

/-- Witness for C10: in a concrete 10-location run with one listing, the
intermediate flush's data rows are a prefix of the final flush's data
rows. -/
theorem c10_monotone_flushes_witness :
    (((runDriver "major_cities" tenLocs c10Env).flushes.getD 0 ("", [])).2.drop 1) <+:
      (((runDriver "major_cities" tenLocs c10Env).flushes.getD 1 ("", [])).2.drop 1) := by
  exact c10_monotone_flushes "major_cities" tenLocs c10Env 0 1 (by decide) (by decide)

end Kirby
